import Mathlib

/-!
Verification of built-fast/vector-cli (a Rust CLI for the BuiltFast
platform API) against its natural-language specification.

The Rust sources are shallowly embedded: pure functions become Lean
functions, JSON values become an inductive `Json` type standing for
`serde_json::Value`, fallible code returns `Except`, and the effects
the embedded fragments do not depend on (the network, the filesystem,
the terminal) are passed in as explicit arguments.
-/

namespace VectorCli

/-- JSON values, standing for `serde_json::Value`. Numbers are modelled as
integers: every number appearing in the embedded code paths is integral
(`as_u64` rejects anything that is not an unsigned 64-bit integer). Objects
are association lists of fields. -/
inductive Json where
  | null : Json
  | bool (b : Bool) : Json
  | num (n : Int) : Json
  | str (s : String) : Json
  | arr (elems : List Json) : Json
  | obj (fields : List (String × Json)) : Json

/-- Field lookup on a JSON value, standing for `Value::get(key)`:
`some` of the value of the field when the value is an object containing
the key, `none` otherwise. -/
def Json.get (j : Json) (key : String) : Option Json :=
  match j with
  | .obj fields => (fields.find? (fun p => p.1 = key)).map (·.2)
  | _ => none

/-- `Value::as_u64`: `some` exactly when the number is an integer in the
range of `u64`. -/
def Json.as_u64 (j : Json) : Option Nat :=
  match j with
  | .num n => if 0 ≤ n ∧ n < (2 : Int) ^ 64 then some n.toNat else none
  | _ => none

/-! ## src/api/error.rs -/

/-- Exit code constants from `src/api/error.rs`. -/
def EXIT_SUCCESS : Int := 0

def EXIT_GENERAL_ERROR : Int := 1

def EXIT_AUTH_ERROR : Int := 2

def EXIT_VALIDATION_ERROR : Int := 3

def EXIT_NOT_FOUND : Int := 4

def EXIT_NETWORK_ERROR : Int := 5

/-- The `ApiError` enum from `src/api/error.rs`. `NetworkError` wraps a
`reqwest::Error` in the source; we keep its display string. -/
inductive ApiError where
  | Unauthorized (msg : String)
  | Forbidden (msg : String)
  | NotFound (msg : String)
  | ValidationError (msg : String)
  | ServerError (msg : String)
  | NetworkError (msg : String)
  | ConfigError (msg : String)
  | Other (msg : String)
deriving Repr, DecidableEq

/-- The constructor (variant) of an `ApiError`, used to speak about the
"kind" of an error independently of its message. -/
inductive ErrorKind where
  | unauthorized | forbidden | notFound | validationError
  | serverError | networkError | configError | other
deriving Repr, DecidableEq

def ApiError.kind : ApiError → ErrorKind
  | .Unauthorized _ => .unauthorized
  | .Forbidden _ => .forbidden
  | .NotFound _ => .notFound
  | .ValidationError _ => .validationError
  | .ServerError _ => .serverError
  | .NetworkError _ => .networkError
  | .ConfigError _ => .configError
  | .Other _ => .other

/-- `ApiError::exit_code` from `src/api/error.rs`. -/
def ApiError.exit_code : ApiError → Int
  | .Unauthorized _ | .Forbidden _ => EXIT_AUTH_ERROR
  | .NotFound _ => EXIT_NOT_FOUND
  | .ValidationError _ => EXIT_VALIDATION_ERROR
  | .ServerError _ | .NetworkError _ => EXIT_NETWORK_ERROR
  | .ConfigError _ | .Other _ => EXIT_GENERAL_ERROR

/-- The `ErrorResponse` struct from `src/api/error.rs`:
`message: Option<String>, errors: Option<HashMap<String, Vec<String>>>`.
The hash map is modelled as an association list. -/
structure ErrorResponse where
  message : Option String
  errors : Option (List (String × List String))
deriving Repr, DecidableEq

/-- Serde deserialization of the elements of a `Vec<String>`: each element
must be a string; the first non-string fails the whole sequence. -/
def decodeStrings : List Json → Option (List String)
  | [] => some []
  | .str s :: rest => (decodeStrings rest).map (fun ms => s :: ms)
  | _ => none

/-- Serde deserialization of `Vec<String>` from a JSON value: succeeds
exactly on an array whose elements are all strings. -/
def decodeStringList : Json → Option (List String)
  | .arr elems => decodeStrings elems
  | _ => none

/-- Serde deserialization of the entries of a
`HashMap<String, Vec<String>>`: each field value must deserialize as a
`Vec<String>`; the first failure fails the whole map. -/
def decodeErrorFields : List (String × Json) → Option (List (String × List String))
  | [] => some []
  | p :: rest =>
      match decodeStringList p.2 with
      | none => none
      | some ms => (decodeErrorFields rest).map (fun tail => (p.1, ms) :: tail)

/-- Serde deserialization of `HashMap<String, Vec<String>>` from a JSON
value: succeeds exactly on an object whose field values are all arrays of
strings. -/
def decodeErrorsMap : Json → Option (List (String × List String))
  | .obj fields => decodeErrorFields fields
  | _ => none

/-- Serde deserialization of an `Option<A>` struct field: an absent field
and a `null` field both give `none`; a present field must decode with
`dec` (a failure fails the whole struct). -/
def decodeOptField {α : Type} (dec : Json → Option α) : Option Json → Option (Option α)
  | none => some none
  | some .null => some none
  | some j => (dec j).map some

/-- Serde deserialization of `ErrorResponse` from a JSON value
(`serde_json::from_str::<ErrorResponse>` after parsing): the value must be
an object; unknown fields are ignored. -/
def deserializeErrorResponse (j : Json) : Option ErrorResponse :=
  match j with
  | .obj _ => do
      let message ← decodeOptField (fun v => match v with | .str s => some s | _ => none)
        (j.get "message")
      let errors ← decodeOptField decodeErrorsMap (j.get "errors")
      pure ⟨message, errors⟩
  | _ => none

/-- The list of formatted "field: message" strings produced by the
`flat_map` inside `parse_error_message`. -/
def errorMessages (errors : List (String × List String)) : List String :=
  errors.flatMap (fun p => p.2.map (fun msg => p.1 ++ ": " ++ msg))

/-- `parse_error_message` from `src/api/error.rs`. `parsed` is the result
of `serde_json::from_str` on `body` (the string parser lives in serde;
we take its output as input): `none` when `body` is not valid JSON, and
`deserializeErrorResponse` models the typed deserialization on top. -/
def parse_error_message (parsed : Option Json) (body : String) : String :=
  match parsed.bind deserializeErrorResponse with
  | some response =>
      match response.errors with
      | some errors =>
          let msgs := errorMessages errors
          if msgs.isEmpty then
            match response.message with
            | some message => message
            | none => body
          else
            String.intercalate "; " msgs
      | none =>
          match response.message with
          | some message => message
          | none => body
  | none => body

/-- `ApiError::from_response` from `src/api/error.rs`: the match on the
status, with the message computed by `parse_error_message`. -/
def ApiError.from_response (status : Nat) (parsed : Option Json) (body : String) : ApiError :=
  let message := parse_error_message parsed body
  if status = 401 then .Unauthorized message
  else if status = 403 then .Forbidden message
  else if status = 404 then .NotFound message
  else if status = 422 then .ValidationError message
  else if 500 ≤ status ∧ status ≤ 599 then .ServerError message
  else .Other message

/-! ## src/api/client.rs -/

/-- `DEFAULT_BASE_URL` from `src/api/client.rs`. -/
def DEFAULT_BASE_URL : String := "https://api.builtfast.com"

/-- The `ApiClient` struct from `src/api/client.rs`. The `reqwest` client
handle carries no state the embedded code inspects, so only the two
configuration fields are kept. -/
structure ApiClient where
  base_url : String
  token : Option String
deriving Repr, DecidableEq

/-- `ApiClient::new` from `src/api/client.rs`. Whether the underlying HTTP
engine (`Client::builder().user_agent(..).build()`) initializes is external
to the program, so its outcome is the argument `buildResult` (carrying the
error display string on failure). A build failure is mapped with
`map_err(ApiError::NetworkError)`; on success the base URL defaults to
`DEFAULT_BASE_URL`. -/
def ApiClient.new (buildResult : Except String Unit) (base_url : Option String)
    (token : Option String) : Except ApiError ApiClient :=
  match buildResult with
  | .error e => .error (ApiError.NetworkError e)
  | .ok _ => .ok ⟨base_url.getD DEFAULT_BASE_URL, token⟩

/-- `ApiClient::set_token` from `src/api/client.rs`. -/
def ApiClient.set_token (c : ApiClient) (token : String) : ApiClient :=
  { c with token := some token }

/-- Validity of a byte inside an HTTP header value, as checked by
`http::HeaderValue::from_str`: horizontal tab, or any byte that is at
least 32 and is not DEL (127). Bytes of multi-byte UTF-8 characters are
all at least 128 and hence valid. -/
def isValidHeaderValueChar (c : Char) : Bool :=
  c = '\t' ∨ (32 ≤ c.toNat ∧ c.toNat ≠ 127)

/-- Validity of a whole string as an HTTP header value
(`HeaderValue::from_str` succeeds exactly when every byte is valid; on a
Lean `String` this is every character valid, since continuation bytes are
always valid). -/
def isValidHeaderValue (s : String) : Bool :=
  s.toList.all isValidHeaderValueChar

/-- Display string of `http::header::InvalidHeaderValue`, produced by
`e.to_string()` in the `map_err` of `ApiClient::headers`. -/
def INVALID_HEADER_VALUE_MSG : String := "failed to parse header value"

/-- `ApiClient::headers` from `src/api/client.rs`. The `HeaderMap` is
modelled as an association list in insertion order, header names in their
canonical lowercase form (`ACCEPT`, `CONTENT_TYPE`, `AUTHORIZATION`). -/
def ApiClient.headers (c : ApiClient) : Except ApiError (List (String × String)) :=
  let base := [("accept", "application/json"), ("content-type", "application/json")]
  match c.token with
  | none => .ok base
  | some token =>
      let auth_value := "Bearer " ++ token
      if isValidHeaderValue auth_value then
        .ok (base ++ [("authorization", auth_value)])
      else
        .error (ApiError.ConfigError INVALID_HEADER_VALUE_MSG)

/-- The header set sent by `ApiClient::post_file` from `src/api/client.rs`:
`self.headers()` followed by `headers.remove(CONTENT_TYPE)`. -/
def ApiClient.post_file_headers (c : ApiClient) : Except ApiError (List (String × String)) :=
  (c.headers).map (fun hs => hs.filter (fun p => p.1 ≠ "content-type"))

/-- `ApiClient::handle_response` from `src/api/client.rs`. The response is
given by its status, body text, and (for the non-2xx branch) the serde
parse of the body; `decode` is the caller's typed JSON decoder
(`serde_json::from_str::<T>` on the body), with the serde error display
string on failure. `status.is_success()` is 200 ≤ status ≤ 299. -/
def ApiClient.handle_response {α : Type} (decode : String → Except String α)
    (status : Nat) (parsed : Option Json) (body : String) : Except ApiError α :=
  if 200 ≤ status ∧ status ≤ 299 then
    match decode body with
    | .ok v => .ok v
    | .error e => .error (ApiError.Other ("JSON parse error: " ++ e))
  else
    .error (ApiError.from_response status parsed body)

/-! ## src/output.rs -/

/-- The `OutputFormat` enum from `src/output.rs`. -/
inductive OutputFormat where
  | Json
  | Table
deriving Repr, DecidableEq

/-- `OutputFormat::detect` from `src/output.rs`. Whether standard output is
an interactive terminal (`atty::is(atty::Stream::Stdout)`) is external
state, passed as `stdout_is_tty`. -/
def OutputFormat.detect (json_flag : Bool) (no_json_flag : Bool)
    (stdout_is_tty : Bool) : OutputFormat :=
  if json_flag then OutputFormat.Json
  else if no_json_flag then OutputFormat.Table
  else if stdout_is_tty then OutputFormat.Table
  else OutputFormat.Json

/-- `extract_pagination` from `src/output.rs`: the chained `?` lookups on
`meta`, `current_page`, `last_page`, `total`. -/
def extract_pagination (value : Json) : Option (Nat × Nat × Nat) := do
  let meta ← value.get "meta"
  let current_page ← (← meta.get "current_page").as_u64
  let last_page ← (← meta.get "last_page").as_u64
  let total ← (← meta.get "total").as_u64
  pure (current_page, last_page, total)

/-- `print_pagination` from `src/output.rs`, with the printed line (if any)
returned instead of written: the footer is produced only when
`last_page > 1`. -/
def print_pagination (current_page last_page total : Nat) : Option String :=
  if last_page > 1 then
    some ("\nPage " ++ toString current_page ++ " of " ++ toString last_page
      ++ " (" ++ toString total ++ " total)")
  else
    none

/-! ## src/commands/db.rs and src/main.rs -/

/-- The size-check prefix of `import_direct` from `src/commands/db.rs`,
which runs before any request is built or sent: `fs::metadata` (external,
so its outcome — the file length, or an error display string — is the
argument) followed by the 50 MiB comparison. `.ok ()` means the function
proceeds to build the query string and upload the file. -/
def import_direct_size_check (metadata : Except String Nat) : Except ApiError Unit :=
  match metadata with
  | .error e => .error (ApiError.Other ("Failed to read file: " ++ e))
  | .ok len =>
      if len > 50 * 1024 * 1024 then
        .error (ApiError.Other
          "File too large for direct import. Use 'import-session' for files over 50MB.")
      else
        .ok ()

/-- The process exit code chosen by `main` in `src/main.rs`:
`EXIT_SUCCESS` on `Ok(())`, `e.exit_code()` on `Err(e)`. -/
def main_exit_code (result : Except ApiError Unit) : Int :=
  match result with
  | .ok _ => EXIT_SUCCESS
  | .error e => e.exit_code

/-! ## Helpers for stating and proving the specification theorems -/

/-- Whether an `Except` value is a success, for stating "fails only when"
properties. -/
def exceptIsOk {ε α : Type} : Except ε α → Bool
  | .ok _ => true
  | .error _ => false

/-- JSON encoding of a `HashMap<String, Vec<String>>`-shaped `errors`
value, used to quantify over all bodies whose `errors` field deserializes:
each field name maps to an array of strings. -/
def encodeErrors (errors : List (String × List String)) : Json :=
  Json.obj (errors.map (fun p => (p.1, Json.arr (p.2.map Json.str))))

theorem decodeStringList_encode (ms : List String) :
    decodeStringList (Json.arr (ms.map Json.str)) = some ms := by
  induction ms with
  | nil => rfl
  | cons m ms ih =>
      simp only [decodeStringList] at ih ⊢
      simp [decodeStrings, ih]

theorem decodeErrorsMap_encode (errors : List (String × List String)) :
    decodeErrorsMap (encodeErrors errors) = some errors := by
  induction errors with
  | nil => rfl
  | cons p ps ih =>
      simp only [encodeErrors, decodeErrorsMap, List.map_cons] at ih ⊢
      simp [decodeErrorFields, decodeStringList_encode, ih]

theorem deserialize_errors_only (errors : List (String × List String)) :
    deserializeErrorResponse (Json.obj [("errors", encodeErrors errors)]) =
      some ⟨none, some errors⟩ := by
  have h := decodeErrorsMap_encode errors
  simp only [deserializeErrorResponse, Json.get, List.find?, encodeErrors] at h ⊢
  simp [decodeOptField, h]

theorem deserialize_errors_and_message (errors : List (String × List String)) (m : String) :
    deserializeErrorResponse
        (Json.obj [("errors", encodeErrors errors), ("message", Json.str m)]) =
      some ⟨some m, some errors⟩ := by
  have h := decodeErrorsMap_encode errors
  simp only [deserializeErrorResponse, Json.get, List.find?, encodeErrors] at h ⊢
  simp [decodeOptField, h]

theorem as_u64_natCast (n : Nat) (h : n < 2 ^ 64) :
    (Json.num (n : Int)).as_u64 = some n := by
  simp only [Json.as_u64]
  rw [if_pos ⟨Int.ofNat_nonneg n, by exact_mod_cast h⟩, Int.toNat_natCast]

theorem extract_pagination_meta (m : Json) :
    extract_pagination (Json.obj [("meta", m)]) =
      (m.get "current_page").bind (fun a => a.as_u64.bind (fun current_page =>
        (m.get "last_page").bind (fun b => b.as_u64.bind (fun last_page =>
          (m.get "total").bind (fun d => d.as_u64.bind (fun total =>
            some (current_page, last_page, total))))))) := rfl

theorem get_current_page (a b d : Json) :
    (Json.obj [("current_page", a), ("last_page", b), ("total", d)]).get "current_page" =
      some a := rfl

theorem get_last_page (a b d : Json) :
    (Json.obj [("current_page", a), ("last_page", b), ("total", d)]).get "last_page" =
      some b := rfl

theorem get_total (a b d : Json) :
    (Json.obj [("current_page", a), ("last_page", b), ("total", d)]).get "total" =
      some d := rfl

/-! ## Claim theorems -/

/-- C1: For every HTTP status code and body, `ApiError::from_response`
yields the kind determined solely by the status: 401 gives Unauthorized,
403 Forbidden, 404 NotFound, 422 ValidationError, every status in 500-599
ServerError, and any other status (e.g. 400) Other. -/
theorem from_response_kind_by_status (status : Nat) (parsed : Option Json) (body : String) :
    (ApiError.from_response status parsed body).kind =
      (if status = 401 then ErrorKind.unauthorized
       else if status = 403 then ErrorKind.forbidden
       else if status = 404 then ErrorKind.notFound
       else if status = 422 then ErrorKind.validationError
       else if 500 ≤ status ∧ status ≤ 599 then ErrorKind.serverError
       else ErrorKind.other) := by
  unfold ApiError.from_response
  split_ifs <;> rfl

/-- C2: `ApiError::exit_code` maps Unauthorized and Forbidden to 2,
NotFound to 4, ValidationError to 3, ServerError and NetworkError to 5,
ConfigError and Other to 1, for every message; and `main` exits with 0 on
a successful run. -/
theorem exit_code_mapping (m : String) :
    (ApiError.Unauthorized m).exit_code = 2 ∧
    (ApiError.Forbidden m).exit_code = 2 ∧
    (ApiError.NotFound m).exit_code = 4 ∧
    (ApiError.ValidationError m).exit_code = 3 ∧
    (ApiError.ServerError m).exit_code = 5 ∧
    (ApiError.NetworkError m).exit_code = 5 ∧
    (ApiError.ConfigError m).exit_code = 1 ∧
    (ApiError.Other m).exit_code = 1 ∧
    main_exit_code (.ok ()) = 0 :=
  ⟨rfl, rfl, rfl, rfl, rfl, rfl, rfl, rfl, rfl⟩

/-- C8: `OutputFormat::detect` gives Json whenever the json flag is set
(even together with the no-json flag), Table when only the no-json flag is
set (regardless of terminal-ness), and otherwise Table exactly when stdout
is an interactive terminal, Json otherwise. -/
theorem detect_resolution (tty : Bool) :
    OutputFormat.detect true false tty = OutputFormat.Json ∧
    OutputFormat.detect true true tty = OutputFormat.Json ∧
    OutputFormat.detect false true tty = OutputFormat.Table ∧
    OutputFormat.detect false false true = OutputFormat.Table ∧
    OutputFormat.detect false false false = OutputFormat.Json :=
  ⟨rfl, rfl, rfl, rfl, rfl⟩

/-- C9: `extract_pagination` yields (1,5,50) on a response whose `meta`
object holds the three unsigned-integer fields; yields `none` (never a
zeroed tuple) when `meta` is missing (in general, and on the concrete
`\x7b"data": []\x7d` example) or partial; and the `print_pagination`
footer is produced exactly when `last_page > 1`. -/
theorem extract_pagination_spec :
    extract_pagination (Json.obj [("data", Json.arr []),
      ("meta", Json.obj [("current_page", Json.num 1), ("last_page", Json.num 5),
        ("total", Json.num 50)])]) = some (1, 5, 50) ∧
    (∀ c l t : Nat, c < 2 ^ 64 → l < 2 ^ 64 → t < 2 ^ 64 →
      extract_pagination (Json.obj [("meta", Json.obj [("current_page", Json.num c),
        ("last_page", Json.num l), ("total", Json.num t)])]) = some (c, l, t)) ∧
    (∀ value : Json, value.get "meta" = none → extract_pagination value = none) ∧
    extract_pagination (Json.obj [("data", Json.arr [])]) = none ∧
    extract_pagination (Json.obj [("meta", Json.obj [("current_page", Json.num 1)])]) = none ∧
    (∀ current_page last_page total : Nat,
      (print_pagination current_page last_page total).isSome = true ↔ 1 < last_page) := by
  refine ⟨by decide, ?_, ?_, by decide, by decide, ?_⟩
  · intro c l t hc hl ht
    rw [extract_pagination_meta, get_current_page, get_last_page, get_total]
    rw [Option.some_bind, as_u64_natCast c hc, Option.some_bind, Option.some_bind,
      as_u64_natCast l hl, Option.some_bind, Option.some_bind, as_u64_natCast t ht,
      Option.some_bind]
  · intro value h
    simp [extract_pagination, h]
  · intro c l t
    simp [print_pagination]

/-- Witness for C9: the general extraction clause applied at the concrete
triple (2, 3, 10), and the meta-missing clause applied at the concrete
value `null`, whose `meta` lookup is `none`. -/
theorem extract_pagination_spec_witness :
    extract_pagination (Json.obj [("meta", Json.obj [("current_page", Json.num 2),
      ("last_page", Json.num 3), ("total", Json.num 10)])]) = some (2, 3, 10) ∧
    Json.get Json.null "meta" = none ∧ extract_pagination Json.null = none :=
  ⟨extract_pagination_spec.2.1 2 3 10 (by norm_num) (by norm_num) (by norm_num),
   rfl, extract_pagination_spec.2.2.1 Json.null rfl⟩

/-- C3: `parse_error_message` follows the three-step priority. When the
body parses as JSON with an `errors` field mapping field names to lists of
strings, the result joins the "field: message" pairs with "; " (and the
concrete validation-errors example yields exactly
"domain: The domain field is required."); else a top-level `message`
string is used verbatim (concrete example yields "Site not found"); else
the raw body text is returned unmodified (concrete non-JSON example
"Internal Server Error" yields itself). -/
theorem parse_error_message_priority :
    parse_error_message
        (some (Json.obj [("errors",
          Json.obj [("domain", Json.arr [Json.str "The domain field is required."])])]))
        "\x7b\"errors\": \x7b\"domain\": [\"The domain field is required.\"]\x7d\x7d" =
      "domain: The domain field is required." ∧
    (∀ (errors : List (String × List String)) (body : String),
      parse_error_message (some (Json.obj [("errors", encodeErrors errors)])) body =
        if (errorMessages errors).isEmpty then body
        else String.intercalate "; " (errorMessages errors)) ∧
    (∀ (errors : List (String × List String)) (body m : String),
      parse_error_message
          (some (Json.obj [("errors", encodeErrors errors), ("message", Json.str m)]))
          body =
        if (errorMessages errors).isEmpty then m
        else String.intercalate "; " (errorMessages errors)) ∧
    parse_error_message
        (some (Json.obj [("message", Json.str "Site not found"),
          ("http_status", Json.num 404)]))
        "\x7b\"message\": \"Site not found\", \"http_status\": 404\x7d" =
      "Site not found" ∧
    (∀ (body m : String),
      parse_error_message (some (Json.obj [("message", Json.str m)])) body = m) ∧
    (∀ body : String, parse_error_message none body = body) ∧
    parse_error_message none "Internal Server Error" = "Internal Server Error" := by
  refine ⟨by decide, ?_, ?_, by decide, fun body m => rfl, fun body => rfl, rfl⟩
  · intro errors body
    simp [parse_error_message, deserialize_errors_only]
  · intro errors body m
    simp [parse_error_message, deserialize_errors_and_message]

/-- C10: when the `errors` field deserializes but produces zero
(field, message) pairs, `parse_error_message` never returns the empty
joined string: it falls through to the top-level `message` field when one
is present, and otherwise returns the raw body text. -/
theorem parse_error_message_empty_errors_pairs :
    (∀ (errors : List (String × List String)) (body m : String),
      errorMessages errors = [] →
      parse_error_message
          (some (Json.obj [("errors", encodeErrors errors), ("message", Json.str m)]))
          body = m) ∧
    (∀ (errors : List (String × List String)) (body : String),
      errorMessages errors = [] →
      parse_error_message (some (Json.obj [("errors", encodeErrors errors)])) body = body) ∧
    parse_error_message (some (Json.obj [("errors", Json.obj []),
      ("message", Json.str "fallback")])) "raw" = "fallback" ∧
    parse_error_message (some (Json.obj [("errors",
      Json.obj [("domain", Json.arr [])])])) "raw body" = "raw body" := by
  refine ⟨?_, ?_, by decide, by decide⟩
  · intro errors body m h
    simp [parse_error_message, deserialize_errors_and_message, h]
  · intro errors body h
    simp [parse_error_message, deserialize_errors_only, h]

/-- Witness for C10: the fall-through applied at the concrete mapping
\x7b"domain": []\x7d (one field, empty list, hence zero pairs) with a
`message` field present. -/
theorem parse_error_message_empty_errors_pairs_witness :
    errorMessages [("domain", ([] : List String))] = [] ∧
    parse_error_message (some (Json.obj [("errors", encodeErrors [("domain", [])]),
      ("message", Json.str "Site not found")])) "ignored" = "Site not found" :=
  ⟨rfl, parse_error_message_empty_errors_pairs.1 [("domain", [])] "ignored" "Site not found" rfl⟩

/-- C4: `ApiClient::handle_response` returns a decoded value only when the
status is 2xx and the body decodes; a 2xx body that fails to decode yields
an `Other` error embedding the parse-error description; a non-2xx status
yields exactly `ApiError::from_response status body` as the sole error. -/
theorem handle_response_spec {α : Type} (decode : String → Except String α)
    (status : Nat) (parsed : Option Json) (body : String) :
    (∀ v : α, ApiClient.handle_response decode status parsed body = .ok v →
      (200 ≤ status ∧ status ≤ 299) ∧ decode body = .ok v) ∧
    (∀ e : String, (200 ≤ status ∧ status ≤ 299) → decode body = .error e →
      ApiClient.handle_response decode status parsed body =
        .error (ApiError.Other ("JSON parse error: " ++ e))) ∧
    (¬(200 ≤ status ∧ status ≤ 299) →
      ApiClient.handle_response decode status parsed body =
        .error (ApiError.from_response status parsed body)) := by
  unfold ApiClient.handle_response
  refine ⟨?_, ?_, ?_⟩
  · intro v hv
    split at hv
    · split at hv
      · exact ⟨by assumption, by simp_all⟩
      · exact absurd hv (by simp)
    · exact absurd hv (by simp)
  · intro e h hd
    rw [if_pos h, hd]
  · intro h
    rw [if_neg h]

/-- Witness for C4: the non-2xx clause at status 404. -/
theorem handle_response_spec_witness :
    ¬(200 ≤ 404 ∧ 404 ≤ 299) ∧
    ApiClient.handle_response (fun _ => (Except.ok 0 : Except String Nat)) 404 none "missing" =
      .error (ApiError.from_response 404 none "missing") :=
  ⟨by decide,
   (handle_response_spec (fun _ => (Except.ok 0 : Except String Nat)) 404 none "missing").2.2
     (by decide)⟩

/-- C5 counterexample: when the HTTP engine fails to initialize,
`ApiClient::new` returns a `NetworkError` (the builder error is mapped
with `map_err(ApiError::NetworkError)`), not a `ConfigError` as the claim
states. -/
theorem new_configerror_counterexample :
    ApiClient.new (.error "builder error") none none =
      .error (ApiError.NetworkError "builder error") ∧
    (ApiError.NetworkError "builder error").kind ≠ ErrorKind.configError :=
  ⟨rfl, by decide⟩

/-- C5 (amended): `ApiClient::new` with no base URL uses the fixed default
platform endpoint, with a given base URL uses it unchanged, and fails only
when the underlying HTTP engine cannot initialize, in which case the
returned error is of kind NetworkError. -/
theorem new_spec (base_url : Option String) (token : Option String) (u e : String) :
    ApiClient.new (.ok ()) none token = .ok ⟨DEFAULT_BASE_URL, token⟩ ∧
    DEFAULT_BASE_URL = "https://api.builtfast.com" ∧
    ApiClient.new (.ok ()) (some u) token = .ok ⟨u, token⟩ ∧
    ApiClient.new (.error e) base_url token = .error (ApiError.NetworkError e) ∧
    exceptIsOk (ApiClient.new (.ok ()) base_url token) = true := by
  refine ⟨rfl, rfl, rfl, rfl, ?_⟩
  cases base_url <;> rfl

/-- C6: the header set built by `ApiClient::headers` always contains
`Accept: application/json` and `Content-Type: application/json`; whenever
a token is configured (at construction, or propagated by `set_token`) it
also contains `Authorization: Bearer <token>`; a token whose characters
cannot form a valid header value yields a `ConfigError` instead of a
request; and the multipart file-upload variant (`post_file`) sends the
same headers with `Content-Type` removed. -/
theorem headers_spec (base_url : String) (tok : String) :
    ApiClient.headers ⟨base_url, none⟩ =
      .ok [("accept", "application/json"), ("content-type", "application/json")] ∧
    (isValidHeaderValue ("Bearer " ++ tok) = true →
      ApiClient.headers ⟨base_url, some tok⟩ =
        .ok [("accept", "application/json"), ("content-type", "application/json"),
          ("authorization", "Bearer " ++ tok)]) ∧
    (isValidHeaderValue ("Bearer " ++ tok) = false →
      ApiClient.headers ⟨base_url, some tok⟩ =
        .error (ApiError.ConfigError INVALID_HEADER_VALUE_MSG)) ∧
    ApiClient.set_token ⟨base_url, none⟩ tok = ⟨base_url, some tok⟩ ∧
    (isValidHeaderValue ("Bearer " ++ tok) = true →
      ApiClient.post_file_headers ⟨base_url, some tok⟩ =
        .ok [("accept", "application/json"), ("authorization", "Bearer " ++ tok)]) := by
  refine ⟨rfl, ?_, ?_, rfl, ?_⟩
  · intro h
    simp [ApiClient.headers, h]
  · intro h
    simp [ApiClient.headers, h]
  · intro h
    simp [ApiClient.post_file_headers, ApiClient.headers, h, Except.map, List.filter]

/-- Witness for C6: the token clauses applied at the valid token "tok123"
and at the invalid token "bad\ntok" (a newline cannot appear in a header
value). -/
theorem headers_spec_witness :
    isValidHeaderValue ("Bearer " ++ "tok123") = true ∧
    ApiClient.headers ⟨"https://api.builtfast.com", some "tok123"⟩ =
      .ok [("accept", "application/json"), ("content-type", "application/json"),
        ("authorization", "Bearer " ++ "tok123")] ∧
    isValidHeaderValue ("Bearer " ++ "bad\ntok") = false ∧
    ApiClient.headers ⟨"https://api.builtfast.com", some "bad\ntok"⟩ =
      .error (ApiError.ConfigError INVALID_HEADER_VALUE_MSG) :=
  ⟨by decide,
   (headers_spec "https://api.builtfast.com" "tok123").2.1 (by decide),
   by decide,
   (headers_spec "https://api.builtfast.com" "bad\ntok").2.2.1 (by decide)⟩

/-- C7 counterexample: a file of exactly 50MB (52428800 bytes) is NOT
rejected by the size check in `import_direct` — the code compares with a
strict `len > 50 * 1024 * 1024`, so the claim's "50MB or more" boundary is
wrong: at exactly 50MB the function proceeds to the upload. -/
theorem import_direct_boundary_counterexample :
    import_direct_size_check (.ok (50 * 1024 * 1024)) = .ok () := by
  simp [import_direct_size_check]

/-- C7 (amended): for every file whose size is strictly greater than 50MB
(52428800 bytes), the size check at the start of `import_direct` — which
runs before any request is built or sent — returns an `Other` error whose
message references the size limit and the import-session alternative;
files of size at most 50MB proceed to the upload. -/
theorem import_direct_size_check_spec (len : Nat) (e : String) :
    (50 * 1024 * 1024 < len →
      import_direct_size_check (.ok len) = .error (ApiError.Other
        "File too large for direct import. Use 'import-session' for files over 50MB.")) ∧
    (len ≤ 50 * 1024 * 1024 → import_direct_size_check (.ok len) = .ok ()) ∧
    import_direct_size_check (.error e) =
      .error (ApiError.Other ("Failed to read file: " ++ e)) := by
  refine ⟨?_, ?_, rfl⟩
  · intro h
    simp [import_direct_size_check, h]
  · intro h
    simp [import_direct_size_check, Nat.not_lt.mpr h]

/-- Witness for C7: the two size clauses applied at 52428801 bytes
(rejected locally) and at 100 bytes (proceeds). -/
theorem import_direct_size_check_spec_witness :
    50 * 1024 * 1024 < 52428801 ∧
    import_direct_size_check (.ok 52428801) = .error (ApiError.Other
      "File too large for direct import. Use 'import-session' for files over 50MB.") ∧
    (100 : Nat) ≤ 50 * 1024 * 1024 ∧
    import_direct_size_check (.ok 100) = .ok () :=
  ⟨by norm_num,
   (import_direct_size_check_spec 52428801 "x").1 (by norm_num),
   by norm_num,
   (import_direct_size_check_spec 100 "x").2.1 (by norm_num)⟩

end VectorCli
